import Mathlib

/-!
Shallow embedding of `ground_segmentation::ScanGroundFilterComponent`
(`src/perception/ground_segmentation/src/scan_ground_filter_nodelet.cpp`).

Conventions of the embedding:
* C++ `float`/`double` values are modelled as exact rationals (`ℚ`).
* The transcendental / library numeric calls (`std::hypot`, `std::atan2`,
  `tier4_autoware_utils::calcDistance3d`) and the double constant `M_PI`
  are not rational-valued functions, so the whole development is
  parametric in a record `FloatOps` supplying them; every piece of
  control flow, state update and comparison is transcribed from the
  source verbatim over these parameters.
* `std::sort` (line 81) guarantees only a permutation that is sorted
  with respect to the comparator; it is modelled relationally by the
  postcondition `stdSortPost`.
-/

namespace ScanGroundFilter

/-- A `pcl::PointXYZ`: raw 3D position. -/
structure PointXYZ where
  x : ℚ
  y : ℚ
  z : ℚ
deriving DecidableEq, Repr

/-- Enumeration `PointLabel` of the nodelet (`INIT` is the "unset" state,
`POINT_FOLLOW` the pending "inherit the previous label" state). -/
inductive PointLabel where
  | INIT
  | GROUND
  | NON_GROUND
  | POINT_FOLLOW
deriving DecidableEq, Repr

/-- A `PointRef` as filled in by `convertPointcloud` (the `orig_point`
pointer is modelled by value: the frame is read-only during
classification). -/
structure PointRef where
  radius : ℚ
  theta : ℚ
  radial_div : ℕ
  point_state : PointLabel
  orig_index : ℕ
  orig_point : PointXYZ
deriving DecidableEq, Repr

/-- Abstract stand-ins for the floating point library calls used by the
nodelet.  `pi` is the value of the double constant `M_PI`. -/
structure FloatOps where
  pi : ℚ
  hypot : ℚ → ℚ → ℚ
  atan2 : ℚ → ℚ → ℚ
  dist3d : PointXYZ → PointXYZ → ℚ

/-- Configuration fields of the component (the `_rad_` members are stored
in radians).  `wheel_base_m` is the single scalar obtained from the
vehicle-geometry provider (`VehicleInfoUtil`). -/
structure Config where
  global_slope_max_angle_rad : ℚ
  local_slope_max_angle_rad : ℚ
  radial_divider_angle_rad : ℚ
  split_points_distance_tolerance : ℚ
  split_height_distance : ℚ
  use_virtual_ground_point : Bool
  radial_dividers_num : ℕ
  wheel_base_m : ℚ
deriving DecidableEq, Repr

/-- Modelled from the spec: `tier4_autoware_utils::deg2rad` (outside
`src/`): degrees to radians, `d * pi / 180`. -/
def deg2rad (pi d : ℚ) : ℚ := d * pi / 180

/-- Modelled from the spec: `tier4_autoware_utils::normalizeRadian(x, 0.0)`
(outside `src/`); §4.1: "`theta` normalized azimuth in [0, 2π)", i.e. the
representative of `x` modulo `2π` lying in `[0, 2π)`. -/
def normalizeRadianZero (pi x : ℚ) : ℚ := x - (2 * pi) * ⌊x / (2 * pi)⌋

/-- Modelled from the spec: `tier4_autoware_utils::normalizeDegree(x, 0.0)`
(outside `src/`), the degree analogue of the normalization above: the
representative of `x` modulo `360` lying in `[0, 360)`. -/
def normalizeDegreeZero (x : ℚ) : ℚ := x - 360 * ⌊x / 360⌋

/-- The `radial_dividers_num_ = std::ceil(2.0 * M_PI / radial_divider_angle_rad_)`
computation of the constructor and of `onParameter` (stored into a
`size_t`; negative values collapse to `0` under the cast model). -/
def radialDividersNum (pi res : ℚ) : ℕ := (⌈2 * pi / res⌉).toNat

/-- The sector index computed at line 65-66:
`static_cast<size_t>(std::floor(normalizeDegree(theta / radial_divider_angle_rad_, 0.0)))`. -/
def radialDivIndex (cfg : Config) (theta : ℚ) : ℕ :=
  (⌊normalizeDegreeZero (theta / cfg.radial_divider_angle_rad)⌋).toNat

/-- Modelled from the spec: §4.1 "`sector_index = floor(theta / angular_resolution)`,
clamped into `[0, sector_count - 1]`".  This follows the spec's words, for
comparison with `radialDivIndex`, which follows the source. -/
def radialDivIndexClampSpec (cfg : Config) (theta : ℚ) : ℕ :=
  min (⌊theta / cfg.radial_divider_angle_rad⌋).toNat (cfg.radial_dividers_num - 1)

/-- Appends `a` to the `i`-th inner list (`out[i].emplace_back(a)`); an
out-of-range `i` is a no-op in the model (undefined behaviour in C++). -/
def appendAt {α : Type} : List (List α) → ℕ → α → List (List α)
  | [], _, _ => []
  | l :: ls, 0, a => (l ++ [a]) :: ls
  | l :: ls, n + 1, a => l :: appendAt ls n a

/-- Lines 59-77 of `convertPointcloud`: derive `radius`, `theta` and
`radial_div` for each input point (in input order) and emplace it into its
radial division.  The sorting of lines 79-84 is modelled separately by
`stdSortPost`. -/
def convertPointcloudUnsorted (ops : FloatOps) (cfg : Config)
    (cloud : List PointXYZ) : List (List PointRef) :=
  (cloud.enum).foldl
    (fun acc ip =>
      let i := ip.1
      let pt := ip.2
      let radius := ops.hypot pt.x pt.y
      let theta := normalizeRadianZero ops.pi (ops.atan2 pt.x pt.y)
      let radial_div := radialDivIndex cfg theta
      appendAt acc radial_div
        { radius := radius, theta := theta, radial_div := radial_div,
          point_state := PointLabel.INIT, orig_index := i, orig_point := pt })
    (List.replicate cfg.radial_dividers_num [])

/-- Postcondition of the `std::sort` call of lines 80-84 with comparator
`a.radius < b.radius`: the output is a permutation of the input that is
sorted with respect to the comparator (for consecutive elements `a` before
`b`, `¬ b.radius < a.radius`, i.e. `a.radius ≤ b.radius`).  `std::sort`
promises nothing further: in particular no stability. -/
def stdSortPost (input output : List PointRef) : Prop :=
  input.Perm output ∧ output.Pairwise (fun a b => a.radius ≤ b.radius)

/-- Stability of a sort step, phrased as the spec's tie-break rule: points
of any fixed radius appear in the output in their original relative
order (equivalently, the output's restriction to each radius equals the
input's restriction). -/
def stableTieBreak (input output : List PointRef) : Prop :=
  ∀ r : ℚ, output.filter (fun p => p.radius == r)
    = input.filter (fun p => p.radius == r)

instance (input output : List PointRef) : Decidable (stdSortPost input output) := by
  unfold stdSortPost; infer_instance

/-- Modelled from the spec: the `PointsCentroid` cluster accumulator is
declared in `scan_ground_filter_nodelet.hpp`, which is not among the
provided sources.  §3: "running count, summed radius, summed height for a
contiguous run of points of one label, exposing average height, average
radius, average slope (`atan2(avg_height, avg_radius)`); reset clears all
sums." -/
structure PointsCentroid where
  radius_sum : ℚ
  height_sum : ℚ
  point_num : ℕ
deriving DecidableEq, Repr

/-- The accumulator's reset, `PointsCentroid::initialize()`: clears all sums. -/
def PointsCentroid.reset : PointsCentroid := ⟨0, 0, 0⟩

/-- `PointsCentroid::addPoint(radius, height)`. -/
def PointsCentroid.addPoint (c : PointsCentroid) (r h : ℚ) : PointsCentroid :=
  ⟨c.radius_sum + r, c.height_sum + h, c.point_num + 1⟩

/-- `PointsCentroid::getAverageHeight()` (`0` while the accumulator is empty). -/
def PointsCentroid.getAverageHeight (c : PointsCentroid) : ℚ :=
  if c.point_num = 0 then 0 else c.height_sum / c.point_num

/-- `PointsCentroid::getAverageRadius()` (`0` while the accumulator is empty). -/
def PointsCentroid.getAverageRadius (c : PointsCentroid) : ℚ :=
  if c.point_num = 0 then 0 else c.radius_sum / c.point_num

/-- `PointsCentroid::getAverageSlope()` = `atan2(average height, average radius)`. -/
def PointsCentroid.getAverageSlope (ops : FloatOps) (c : PointsCentroid) : ℚ :=
  ops.atan2 c.getAverageHeight c.getAverageRadius

/-- The per-sector sweep state of `classifyPointCloud` (lines 107-113),
fresh for every radial division. -/
structure SweepState where
  prev_gnd_radius : ℚ
  prev_gnd_slope : ℚ
  prev_gnd_point : PointXYZ
  prev_point_label : PointLabel
  ground_cluster : PointsCentroid
  non_ground_cluster : PointsCentroid
deriving DecidableEq, Repr

/-- Lines 121-132 (`j == 0`): choice of the initial ground reference (the
virtual ground origin `(wheel_base, 0, 0)` when enabled and the point is
on the front side, else the world origin), initial radius/slope, cluster
resets, and the first point's `points_distance`.  `prev_point_label`
starts as `INIT` (line 112). -/
def initState (ops : FloatOps) (cfg : Config) (p : PointRef) : SweepState × ℚ :=
  let init_ground_point : PointXYZ := ⟨0, 0, 0⟩
  let virtual_ground_point : PointXYZ := ⟨cfg.wheel_base_m, 0, 0⟩
  let prev_gnd_point :=
    if cfg.use_virtual_ground_point ∧ p.orig_point.x > virtual_ground_point.x then
      virtual_ground_point
    else init_ground_point
  ( { prev_gnd_radius := ops.hypot prev_gnd_point.x prev_gnd_point.y
      prev_gnd_slope := 0
      prev_gnd_point := prev_gnd_point
      prev_point_label := PointLabel.INIT
      ground_cluster := PointsCentroid.reset
      non_ground_cluster := PointsCentroid.reset },
    ops.dist3d p.orig_point prev_gnd_point )

/-- Lines 137-174: the label a point receives from decision steps 1-4,
before PENDING_FOLLOW resolution.  `d` is `points_distance`.  The
`calculate_slope` paths (branches 2 and 4) both end in the slope
comparison of lines 165-174, transcribed here as `slopeLabel`; the
`is_point_close_to_prev` re-aiming of `height_from_gnd` /
`radius_distance_from_gnd` at the ground cluster's averages (lines
161-164) happens before that comparison, exactly as in the source. -/
def stepPreLabel (ops : FloatOps) (cfg : Config) (st : SweepState)
    (d : ℚ) (p : PointRef) : PointLabel :=
  let height_from_gnd := p.orig_point.z - st.prev_gnd_point.z
  let height_from_obj := p.orig_point.z - st.non_ground_cluster.getAverageHeight
  let is_point_close_to_prev :=
    d < p.radius * cfg.radial_divider_angle_rad + cfg.split_points_distance_tolerance
  let global_slope := ops.atan2 p.orig_point.z p.radius
  let height_from_gnd2 :=
    if is_point_close_to_prev then p.orig_point.z - st.ground_cluster.getAverageHeight
    else height_from_gnd
  let radius_distance_from_gnd2 :=
    if is_point_close_to_prev then p.radius - st.ground_cluster.getAverageRadius
    else p.radius - st.prev_gnd_radius
  let slopeLabel : PointLabel :=
    if ops.atan2 height_from_gnd2 radius_distance_from_gnd2 - st.prev_gnd_slope
        > cfg.local_slope_max_angle_rad
    then PointLabel.NON_GROUND else PointLabel.GROUND
  if global_slope > cfg.global_slope_max_angle_rad then PointLabel.NON_GROUND
  else if st.prev_point_label = PointLabel.NON_GROUND
      ∧ abs height_from_obj ≥ cfg.split_height_distance then slopeLabel
  else if is_point_close_to_prev ∧ abs height_from_gnd < cfg.split_height_distance then
    PointLabel.POINT_FOLLOW
  else slopeLabel

/-- Lines 180-191: resolution of `POINT_FOLLOW` against the previous
point's resolved label (the final `else` leaves the label unchanged). -/
def followResolve (prev labelPre : PointLabel) : PointLabel :=
  if labelPre = PointLabel.NON_GROUND then PointLabel.NON_GROUND
  else if prev = PointLabel.NON_GROUND ∧ labelPre = PointLabel.POINT_FOLLOW then
    PointLabel.NON_GROUND
  else if prev = PointLabel.GROUND ∧ labelPre = PointLabel.POINT_FOLLOW then
    PointLabel.GROUND
  else labelPre

/-- Result of processing one point: its final label, the successor sweep
state, and the indices appended to `out_no_ground_indices` (lines 181 and
186 both push exactly when the resolved label is `NON_GROUND`). -/
structure StepResult where
  label : PointLabel
  state : SweepState
  pushed : List ℕ
deriving DecidableEq, Repr

/-- Lines 137-204: one iteration of the inner (`j`) loop for `j ≥ 1`, and
for `j = 0` once `initState` produced the state and `points_distance`:
steps 1-4 (`stepPreLabel`), the accumulator resets at lines 176-179
(driven by the pre-resolution label), follow resolution and index output
(lines 180-191), and the ground / non-ground state updates of lines
193-204. -/
def classifyStep (ops : FloatOps) (cfg : Config) (st : SweepState)
    (d : ℚ) (p : PointRef) : StepResult :=
  let labelPre := stepPreLabel ops cfg st d p
  let gc1 := if labelPre = PointLabel.GROUND then PointsCentroid.reset
             else st.ground_cluster
  let ngc1 := if labelPre = PointLabel.GROUND then PointsCentroid.reset
              else st.non_ground_cluster
  let final := followResolve st.prev_point_label labelPre
  let pushed := if final = PointLabel.NON_GROUND then [p.orig_index] else []
  let gc2 := if final = PointLabel.GROUND then gc1.addPoint p.radius p.orig_point.z
             else gc1
  { label := final
    state :=
      { prev_gnd_radius := if final = PointLabel.GROUND then p.radius
                           else st.prev_gnd_radius
        prev_gnd_slope := if final = PointLabel.GROUND then
                            PointsCentroid.getAverageSlope ops gc2
                          else st.prev_gnd_slope
        prev_gnd_point := if final = PointLabel.GROUND then p.orig_point
                          else st.prev_gnd_point
        prev_point_label := final
        ground_cluster := gc2
        non_ground_cluster := if final = PointLabel.NON_GROUND then
                                ngc1.addPoint p.radius p.orig_point.z
                              else ngc1 }
    pushed := pushed }

/-- The inner loop for the points after the first one:
`points_distance = calcDistance3d(*p->orig_point, *p_prev->orig_point)`
(line 134), then `classifyStep`.  Returns the final labels (in sweep
order) and the pushed non-ground indices (in push order). -/
def classifySectorAux (ops : FloatOps) (cfg : Config) (st : SweepState)
    (prev : PointRef) : List PointRef → List PointLabel × List ℕ
  | [] => ([], [])
  | p :: rest =>
    let d := ops.dist3d p.orig_point prev.orig_point
    let r := classifyStep ops cfg st d p
    (r.label :: (classifySectorAux ops cfg r.state p rest).1,
     r.pushed ++ (classifySectorAux ops cfg r.state p rest).2)

/-- One radial division's sweep (the body of the outer `i` loop): fresh
state, `j = 0` initialization, then the remaining points. -/
def classifySector (ops : FloatOps) (cfg : Config) :
    List PointRef → List PointLabel × List ℕ
  | [] => ([], [])
  | p :: rest =>
    let s0 := initState ops cfg p
    let r := classifyStep ops cfg s0.1 s0.2 p
    (r.label :: (classifySectorAux ops cfg r.state p rest).1,
     r.pushed ++ (classifySectorAux ops cfg r.state p rest).2)

/-- `classifyPointCloud` (lines 94-207): radial divisions processed in
index order, each with fresh sweep state, all appending to the single
`out_no_ground_indices`.  Also returns each division's final labels. -/
def classifyPointCloud (ops : FloatOps) (cfg : Config) :
    List (List PointRef) → List (List PointLabel) × List ℕ
  | [] => ([], [])
  | s :: ss =>
    ((classifySector ops cfg s).1 :: (classifyPointCloud ops cfg ss).1,
     (classifySector ops cfg s).2 ++ (classifyPointCloud ops cfg ss).2)

/-- `extractObjectPoints` (lines 209-216): copy the input cloud's points
at the collected indices, in the collected order (an out-of-range index,
undefined behaviour in C++, yields the origin point in the model; the
collected indices are always in range). -/
def extractObjectPoints (cloud : List PointXYZ) (indices : List ℕ) :
    List PointXYZ :=
  indices.map (fun i => cloud.getD i ⟨0, 0, 0⟩)

/-- The `filter` pipeline (lines 218-242) without the ROS message
conversions, relational in the sort step: `output` is a valid result of
`filter` on `cloud` iff some per-division sort satisfying `std::sort`'s
postcondition leads to it. -/
def filterRel (ops : FloatOps) (cfg : Config)
    (cloud : List PointXYZ) (output : List PointXYZ) : Prop :=
  ∃ sectors : List (List PointRef),
    List.Forall₂ stdSortPost (convertPointcloudUnsorted ops cfg cloud) sectors ∧
    output = extractObjectPoints cloud (classifyPointCloud ops cfg sectors).2

/-- Parameter updates delivered to `onParameter` (`get_param` finds at most
one value per name; absent names leave the member unchanged). -/
structure ParamUpdate where
  global_slope_max_angle_deg : Option ℚ
  local_slope_max_angle_deg : Option ℚ
  radial_divider_angle_deg : Option ℚ
  split_points_distance_tolerance : Option ℚ
  split_height_distance : Option ℚ
  use_virtual_ground_point : Option Bool
deriving DecidableEq, Repr

/-- `rcl_interfaces::msg::SetParametersResult`. -/
structure SetParametersResult where
  successful : Bool
  reason : String
deriving DecidableEq, Repr

/-- `onParameter` (lines 244-286): each supplied value is installed
unconditionally (degrees converted with `deg2rad`, the divider count
recomputed), and the callback always answers `successful = true`,
`reason = "success"`; no value is validated or rejected. -/
def onParameter (pi : ℚ) (cfg : Config) (p : ParamUpdate) :
    Config × SetParametersResult :=
  let cfg := match p.global_slope_max_angle_deg with
    | some d => { cfg with global_slope_max_angle_rad := deg2rad pi d }
    | none => cfg
  let cfg := match p.local_slope_max_angle_deg with
    | some d => { cfg with local_slope_max_angle_rad := deg2rad pi d }
    | none => cfg
  let cfg := match p.radial_divider_angle_deg with
    | some d => { cfg with
        radial_divider_angle_rad := deg2rad pi d,
        radial_dividers_num := radialDividersNum pi (deg2rad pi d) }
    | none => cfg
  let cfg := match p.split_points_distance_tolerance with
    | some v => { cfg with split_points_distance_tolerance := v }
    | none => cfg
  let cfg := match p.split_height_distance with
    | some v => { cfg with split_height_distance := v }
    | none => cfg
  let cfg := match p.use_virtual_ground_point with
    | some b => { cfg with use_virtual_ground_point := b }
    | none => cfg
  (cfg, { successful := true, reason := "success" })

/-- The constructor's initial parameter block (lines 39-48): degree
parameters converted by `deg2rad`, divider count derived, wheel base
obtained from the vehicle-geometry provider; no validation. -/
def initialConfig (pi : ℚ) (global_slope_max_angle_deg local_slope_max_angle_deg
    radial_divider_angle_deg split_points_distance_tolerance
    split_height_distance : ℚ) (use_virtual_ground_point : Bool)
    (wheel_base_m : ℚ) : Config :=
  { global_slope_max_angle_rad := deg2rad pi global_slope_max_angle_deg
    local_slope_max_angle_rad := deg2rad pi local_slope_max_angle_deg
    radial_divider_angle_rad := deg2rad pi radial_divider_angle_deg
    split_points_distance_tolerance := split_points_distance_tolerance
    split_height_distance := split_height_distance
    use_virtual_ground_point := use_virtual_ground_point
    radial_dividers_num :=
      radialDividersNum pi (deg2rad pi radial_divider_angle_deg)
    wheel_base_m := wheel_base_m }

/-! ### Structural lemmas about one classification step -/

theorem classifyStep_label_eq (ops : FloatOps) (cfg : Config) (st : SweepState)
    (d : ℚ) (p : PointRef) :
    (classifyStep ops cfg st d p).label
      = followResolve st.prev_point_label (stepPreLabel ops cfg st d p) := rfl

theorem classifyStep_pushed_eq (ops : FloatOps) (cfg : Config) (st : SweepState)
    (d : ℚ) (p : PointRef) :
    (classifyStep ops cfg st d p).pushed
      = if (classifyStep ops cfg st d p).label = PointLabel.NON_GROUND
        then [p.orig_index] else [] := rfl

theorem classifyStep_state_prev_label (ops : FloatOps) (cfg : Config)
    (st : SweepState) (d : ℚ) (p : PointRef) :
    (classifyStep ops cfg st d p).state.prev_point_label
      = (classifyStep ops cfg st d p).label := rfl

theorem stepPreLabel_ne_INIT (ops : FloatOps) (cfg : Config) (st : SweepState)
    (d : ℚ) (p : PointRef) : stepPreLabel ops cfg st d p ≠ PointLabel.INIT := by
  simp only [stepPreLabel]
  repeat' split
  all_goals decide

theorem followResolve_ne_INIT (prev labelPre : PointLabel)
    (h : labelPre ≠ PointLabel.INIT) :
    followResolve prev labelPre ≠ PointLabel.INIT := by
  simp only [followResolve]
  repeat' split
  all_goals first | decide | exact h

theorem classifyStep_label_ne_INIT (ops : FloatOps) (cfg : Config)
    (st : SweepState) (d : ℚ) (p : PointRef) :
    (classifyStep ops cfg st d p).label ≠ PointLabel.INIT := by
  rw [classifyStep_label_eq]
  exact followResolve_ne_INIT _ _ (stepPreLabel_ne_INIT ops cfg st d p)

theorem followResolve_eq_follow (prev labelPre : PointLabel)
    (h : followResolve prev labelPre = PointLabel.POINT_FOLLOW) :
    labelPre = PointLabel.POINT_FOLLOW ∧
      (prev = PointLabel.INIT ∨ prev = PointLabel.POINT_FOLLOW) := by
  revert h
  cases prev <;> cases labelPre <;> decide

theorem step_label_of_global_slope (ops : FloatOps) (cfg : Config)
    (st : SweepState) (d : ℚ) (p : PointRef)
    (h : ops.atan2 p.orig_point.z p.radius > cfg.global_slope_max_angle_rad) :
    (classifyStep ops cfg st d p).label = PointLabel.NON_GROUND := by
  have hpre : stepPreLabel ops cfg st d p = PointLabel.NON_GROUND := by
    simp only [stepPreLabel]
    rw [if_pos h]
  rw [classifyStep_label_eq, hpre]
  simp [followResolve]

theorem classifySectorAux_labels_global_slope (ops : FloatOps) (cfg : Config) :
    ∀ (rest : List PointRef) (st : SweepState) (prev : PointRef) (j : ℕ)
      (hj : j < rest.length),
      ops.atan2 (rest.get ⟨j, hj⟩).orig_point.z (rest.get ⟨j, hj⟩).radius
          > cfg.global_slope_max_angle_rad →
      (classifySectorAux ops cfg st prev rest).1.getD j PointLabel.INIT
        = PointLabel.NON_GROUND := by
  intro rest
  induction rest with
  | nil => intro st prev j hj; simp at hj
  | cons p rest ih =>
    intro st prev j hj h
    cases j with
    | zero =>
      simpa [classifySectorAux] using
        step_label_of_global_slope ops cfg st
          (ops.dist3d p.orig_point prev.orig_point) p h
    | succ j =>
      simp only [classifySectorAux, List.getD_cons_succ]
      exact ih _ p j (Nat.lt_of_succ_lt_succ hj) h

/-- C4: a point whose global slope `atan2(z, radius)` exceeds
`global_slope_max_angle` is labeled `NON_GROUND`, no matter where it sits
in its sector and independently of the previous label, the closeness test
or any accumulator state (the check is decision step 1 and nothing after
it can overwrite the label). -/
theorem claim_c4_global_slope_override (ops : FloatOps) (cfg : Config)
    (sector : List PointRef) (j : ℕ) (hj : j < sector.length)
    (h : ops.atan2 (sector.get ⟨j, hj⟩).orig_point.z (sector.get ⟨j, hj⟩).radius
          > cfg.global_slope_max_angle_rad) :
    (classifySector ops cfg sector).1.getD j PointLabel.INIT
      = PointLabel.NON_GROUND := by
  cases sector with
  | nil => simp at hj
  | cons p rest =>
    cases j with
    | zero =>
      simpa [classifySector] using
        step_label_of_global_slope ops cfg (initState ops cfg p).1
          (initState ops cfg p).2 p h
    | succ j =>
      simp only [classifySector, List.getD_cons_succ]
      exact classifySectorAux_labels_global_slope ops cfg rest _ p j
        (Nat.lt_of_succ_lt_succ hj) h

/-- Fixture: the lone-point scenario of C4, a point at radius 1 m, z 1 m.
`atan2(1, 1) = π/4` (45°), here with `π` realized as `355/113`. -/
def opsLone : FloatOps :=
  { pi := 355 / 113
    hypot := fun _ _ => 0
    atan2 := fun y x => if y = 1 ∧ x = 1 then 355 / 113 / 4 else 0
    dist3d := fun _ _ => 0 }

/-- Fixture: the source's default configuration
(`global_slope_max_angle_deg = 8`, `local_slope_max_angle_deg = 6`,
`radial_divider_angle_deg = 1`, tolerances `0.2`), with `π = 355/113` and
wheel base 2.7 m. -/
def cfgDefault : Config :=
  initialConfig (355 / 113) 8 6 1 (2 / 10) (2 / 10) true (27 / 10)

/-- Fixture: the lone point of the C4 scenario (radius 1, z 1). -/
def pLone : PointRef :=
  { radius := 1, theta := 0, radial_div := 0, point_state := PointLabel.INIT,
    orig_index := 0, orig_point := ⟨0, 1, 1⟩ }

theorem claim_c4_witness :
    (0 < [pLone].length) ∧
    opsLone.atan2 pLone.orig_point.z pLone.radius
        > cfgDefault.global_slope_max_angle_rad ∧
    (classifySector opsLone cfgDefault [pLone]).1.getD 0 PointLabel.INIT
      = PointLabel.NON_GROUND := by
  have h : opsLone.atan2 pLone.orig_point.z pLone.radius
      > cfgDefault.global_slope_max_angle_rad := by
    simp only [opsLone, pLone, cfgDefault, initialConfig, deg2rad]
    norm_num
  exact ⟨by decide, h,
    claim_c4_global_slope_override opsLone cfgDefault [pLone] 0 (by decide) h⟩

/-- C5: resolution of a point that came out of steps 1-4 with the
`POINT_FOLLOW` label.  If the previous point's resolved label was
`NON_GROUND` the point resolves to `NON_GROUND` and its original index is
pushed to the non-ground output; if it was `GROUND` the point resolves to
`GROUND` and nothing is pushed; if it was `POINT_FOLLOW` or `INIT` the
point keeps the unresolved `POINT_FOLLOW` label and is pushed to neither
output (its final label is neither `GROUND` nor `NON_GROUND`). -/
theorem claim_c5_follow_resolution (ops : FloatOps) (cfg : Config)
    (st : SweepState) (d : ℚ) (p : PointRef)
    (hpre : stepPreLabel ops cfg st d p = PointLabel.POINT_FOLLOW) :
    (st.prev_point_label = PointLabel.NON_GROUND →
      (classifyStep ops cfg st d p).label = PointLabel.NON_GROUND ∧
      (classifyStep ops cfg st d p).pushed = [p.orig_index]) ∧
    (st.prev_point_label = PointLabel.GROUND →
      (classifyStep ops cfg st d p).label = PointLabel.GROUND ∧
      (classifyStep ops cfg st d p).pushed = []) ∧
    ((st.prev_point_label = PointLabel.POINT_FOLLOW ∨
        st.prev_point_label = PointLabel.INIT) →
      (classifyStep ops cfg st d p).label = PointLabel.POINT_FOLLOW ∧
      (classifyStep ops cfg st d p).pushed = []) := by
  rw [classifyStep_pushed_eq, classifyStep_label_eq, hpre]
  cases hprev : st.prev_point_label <;> simp [followResolve]

/-- Fixture: a sweep state whose previous resolved label is `NON_GROUND`
(fresh accumulators, ground reference at the origin). -/
def stNG : SweepState :=
  { prev_gnd_radius := 0, prev_gnd_slope := 0, prev_gnd_point := ⟨0, 0, 0⟩,
    prev_point_label := PointLabel.NON_GROUND,
    ground_cluster := PointsCentroid.reset,
    non_ground_cluster := PointsCentroid.reset }

/-- Fixture: a point at the origin (radius 0). -/
def pZero : PointRef :=
  { radius := 0, theta := 0, radial_div := 0, point_state := PointLabel.INIT,
    orig_index := 0, orig_point := ⟨0, 0, 0⟩ }

/-- Fixture: a configuration with all thresholds 1, virtual ground point
enabled, one radial division, wheel base 1. -/
def cfgOne : Config :=
  { global_slope_max_angle_rad := 1, local_slope_max_angle_rad := 1,
    radial_divider_angle_rad := 1, split_points_distance_tolerance := 1,
    split_height_distance := 1, use_virtual_ground_point := true,
    radial_dividers_num := 1, wheel_base_m := 1 }

/-- Fixture: all the abstract numeric operations return 0 (π kept at
`355/113`). -/
def opsZero : FloatOps :=
  { pi := 355 / 113, hypot := fun _ _ => 0, atan2 := fun _ _ => 0,
    dist3d := fun _ _ => 0 }

theorem stepPreLabel_stNG :
    stepPreLabel opsZero cfgOne stNG 0 pZero = PointLabel.POINT_FOLLOW := by
  simp only [stepPreLabel, opsZero, cfgOne, stNG, pZero,
    PointsCentroid.getAverageHeight, PointsCentroid.getAverageRadius,
    PointsCentroid.reset]
  norm_num

theorem claim_c5_witness :
    stepPreLabel opsZero cfgOne stNG 0 pZero = PointLabel.POINT_FOLLOW ∧
    stNG.prev_point_label = PointLabel.NON_GROUND ∧
    (classifyStep opsZero cfgOne stNG 0 pZero).label = PointLabel.NON_GROUND ∧
    (classifyStep opsZero cfgOne stNG 0 pZero).pushed = [pZero.orig_index] := by
  have h := (claim_c5_follow_resolution opsZero cfgOne stNG 0 pZero
    stepPreLabel_stNG).1 rfl
  exact ⟨stepPreLabel_stNG, rfl, h.1, h.2⟩

/-- C6: a point whose pre-resolution label is `POINT_FOLLOW` never resets
either accumulator: the ground cluster survives and, exactly when the
point's follow-resolved final label is `GROUND`, the point is accumulated
onto the existing cluster (so a GROUND → PENDING_FOLLOW → ... chain whose
follow points resolve to GROUND keeps extending the earlier ground
point's cluster instead of starting a fresh one); the non-ground cluster
likewise survives, gaining the point exactly when the final label is
`NON_GROUND`. -/
theorem claim_c6_follow_never_resets (ops : FloatOps) (cfg : Config)
    (st : SweepState) (d : ℚ) (p : PointRef)
    (hpre : stepPreLabel ops cfg st d p = PointLabel.POINT_FOLLOW) :
    ((classifyStep ops cfg st d p).state.ground_cluster =
      if (classifyStep ops cfg st d p).label = PointLabel.GROUND then
        st.ground_cluster.addPoint p.radius p.orig_point.z
      else st.ground_cluster) ∧
    ((classifyStep ops cfg st d p).state.non_ground_cluster =
      if (classifyStep ops cfg st d p).label = PointLabel.NON_GROUND then
        st.non_ground_cluster.addPoint p.radius p.orig_point.z
      else st.non_ground_cluster) := by
  simp only [classifyStep, hpre, classifyStep_label_eq]
  simp

/-- Fixture: a sweep state just after a confirmed ground point: previous
label `GROUND`, one point accumulated in the ground cluster. -/
def stAfterGround : SweepState :=
  { prev_gnd_radius := 0, prev_gnd_slope := 0, prev_gnd_point := ⟨0, 0, 0⟩,
    prev_point_label := PointLabel.GROUND,
    ground_cluster := ⟨0, 0, 1⟩,
    non_ground_cluster := PointsCentroid.reset }

theorem stepPreLabel_stAfterGround :
    stepPreLabel opsZero cfgOne stAfterGround 0 pZero
      = PointLabel.POINT_FOLLOW := by
  simp only [stepPreLabel, opsZero, cfgOne, stAfterGround, pZero,
    PointsCentroid.getAverageHeight, PointsCentroid.getAverageRadius,
    PointsCentroid.reset]
  norm_num

theorem claim_c6_witness :
    stepPreLabel opsZero cfgOne stAfterGround 0 pZero
        = PointLabel.POINT_FOLLOW ∧
    ((classifyStep opsZero cfgOne stAfterGround 0 pZero).state.ground_cluster =
      if (classifyStep opsZero cfgOne stAfterGround 0 pZero).label
          = PointLabel.GROUND then
        stAfterGround.ground_cluster.addPoint pZero.radius pZero.orig_point.z
      else stAfterGround.ground_cluster) ∧
    ((classifyStep opsZero cfgOne stAfterGround 0 pZero).state.non_ground_cluster =
      if (classifyStep opsZero cfgOne stAfterGround 0 pZero).label
          = PointLabel.NON_GROUND then
        stAfterGround.non_ground_cluster.addPoint pZero.radius pZero.orig_point.z
      else stAfterGround.non_ground_cluster) :=
  ⟨stepPreLabel_stAfterGround,
    claim_c6_follow_never_resets opsZero cfgOne stAfterGround 0 pZero
      stepPreLabel_stAfterGround⟩

/-! ### Lemmas about the shape of a sector's label sequence -/

theorem classifySectorAux_labels_length (ops : FloatOps) (cfg : Config) :
    ∀ (rest : List PointRef) (st : SweepState) (prev : PointRef),
      (classifySectorAux ops cfg st prev rest).1.length = rest.length := by
  intro rest
  induction rest with
  | nil => intro st prev; rfl
  | cons p rest ih => intro st prev; simp [classifySectorAux, ih]

theorem classifySector_labels_length (ops : FloatOps) (cfg : Config)
    (sector : List PointRef) :
    (classifySector ops cfg sector).1.length = sector.length := by
  cases sector with
  | nil => rfl
  | cons p rest => simp [classifySector, classifySectorAux_labels_length]

theorem classifySectorAux_first_follow (ops : FloatOps) (cfg : Config)
    (rest : List PointRef) (st : SweepState) (prev : PointRef)
    (h : (classifySectorAux ops cfg st prev rest).1.getD 0 PointLabel.INIT
          = PointLabel.POINT_FOLLOW) :
    st.prev_point_label = PointLabel.INIT ∨
      st.prev_point_label = PointLabel.POINT_FOLLOW := by
  cases rest with
  | nil => simp [classifySectorAux] at h
  | cons p rest =>
    simp only [classifySectorAux, List.getD_cons_zero] at h
    rw [classifyStep_label_eq] at h
    rcases followResolve_eq_follow _ _ h with ⟨-, hprev⟩
    exact hprev

theorem classifySectorAux_follow_propagates (ops : FloatOps) (cfg : Config) :
    ∀ (rest : List PointRef) (st : SweepState) (prev : PointRef) (j : ℕ),
      (classifySectorAux ops cfg st prev rest).1.getD (j + 1) PointLabel.INIT
          = PointLabel.POINT_FOLLOW →
      (classifySectorAux ops cfg st prev rest).1.getD j PointLabel.INIT
          = PointLabel.POINT_FOLLOW := by
  intro rest
  induction rest with
  | nil => intro st prev j h; simp [classifySectorAux] at h
  | cons p rest ih =>
    intro st prev j h
    simp only [classifySectorAux, List.getD_cons_succ] at h
    cases j with
    | zero =>
      have hprev := classifySectorAux_first_follow ops cfg rest _ p h
      rw [classifyStep_state_prev_label] at hprev
      simp only [classifySectorAux, List.getD_cons_zero]
      rcases hprev with hbad | hgood
      · exact absurd hbad (classifyStep_label_ne_INIT ops cfg st _ p)
      · exact hgood
    | succ j =>
      simp only [classifySectorAux, List.getD_cons_succ]
      exact ih _ p j h

theorem classifySector_follow_propagates (ops : FloatOps) (cfg : Config)
    (sector : List PointRef) (j : ℕ)
    (h : (classifySector ops cfg sector).1.getD (j + 1) PointLabel.INIT
          = PointLabel.POINT_FOLLOW) :
    (classifySector ops cfg sector).1.getD j PointLabel.INIT
      = PointLabel.POINT_FOLLOW := by
  cases sector with
  | nil => simp [classifySector] at h
  | cons p rest =>
    simp only [classifySector, List.getD_cons_succ] at h
    cases j with
    | zero =>
      have hprev := classifySectorAux_first_follow ops cfg rest _ p h
      rw [classifyStep_state_prev_label] at hprev
      simp only [classifySector, List.getD_cons_zero]
      rcases hprev with hbad | hgood
      · exact absurd hbad (classifyStep_label_ne_INIT ops cfg _ _ p)
      · exact hgood
    | succ j =>
      simp only [classifySector, List.getD_cons_succ]
      exact classifySectorAux_follow_propagates ops cfg rest _ p j h

theorem classifySector_follow_down (ops : FloatOps) (cfg : Config)
    (sector : List PointRef) :
    ∀ (m k : ℕ),
      (classifySector ops cfg sector).1.getD (k + m) PointLabel.INIT
          = PointLabel.POINT_FOLLOW →
      (classifySector ops cfg sector).1.getD k PointLabel.INIT
          = PointLabel.POINT_FOLLOW := by
  intro m
  induction m with
  | zero => intro k h; exact h
  | succ m ih =>
    intro k h
    exact ih k (classifySector_follow_propagates ops cfg sector (k + m) h)

theorem classifySectorAux_labels_ne_INIT (ops : FloatOps) (cfg : Config) :
    ∀ (rest : List PointRef) (st : SweepState) (prev : PointRef) (j : ℕ),
      j < rest.length →
      (classifySectorAux ops cfg st prev rest).1.getD j PointLabel.INIT
        ≠ PointLabel.INIT := by
  intro rest
  induction rest with
  | nil => intro st prev j hj; simp at hj
  | cons p rest ih =>
    intro st prev j hj
    cases j with
    | zero =>
      simp only [classifySectorAux, List.getD_cons_zero]
      exact classifyStep_label_ne_INIT ops cfg st _ p
    | succ j =>
      simp only [classifySectorAux, List.getD_cons_succ]
      exact ih _ p j (Nat.lt_of_succ_lt_succ hj)

theorem classifySector_labels_ne_INIT (ops : FloatOps) (cfg : Config)
    (sector : List PointRef) (j : ℕ) (hj : j < sector.length) :
    (classifySector ops cfg sector).1.getD j PointLabel.INIT
      ≠ PointLabel.INIT := by
  cases sector with
  | nil => simp at hj
  | cons p rest =>
    cases j with
    | zero =>
      simp only [classifySector, List.getD_cons_zero]
      exact classifyStep_label_ne_INIT ops cfg _ _ p
    | succ j =>
      simp only [classifySector, List.getD_cons_succ]
      exact classifySectorAux_labels_ne_INIT ops cfg rest _ p j
        (Nat.lt_of_succ_lt_succ hj)

theorem classifySector_partition_complete (ops : FloatOps) (cfg : Config)
    (sector : List PointRef) (j : ℕ) (hj : j < sector.length) :
    (classifySector ops cfg sector).1.getD j PointLabel.INIT
        = PointLabel.GROUND ∨
    (classifySector ops cfg sector).1.getD j PointLabel.INIT
        = PointLabel.NON_GROUND ∨
    ((classifySector ops cfg sector).1.getD j PointLabel.INIT
        = PointLabel.POINT_FOLLOW ∧
      ∀ k, k ≤ j →
        (classifySector ops cfg sector).1.getD k PointLabel.INIT
          = PointLabel.POINT_FOLLOW) := by
  cases h : (classifySector ops cfg sector).1.getD j PointLabel.INIT with
  | INIT => exact absurd h (classifySector_labels_ne_INIT ops cfg sector j hj)
  | GROUND => exact Or.inl rfl
  | NON_GROUND => exact Or.inr (Or.inl rfl)
  | POINT_FOLLOW =>
    refine Or.inr (Or.inr ⟨rfl, fun k hk => ?_⟩)
    have hkm : k + (j - k) = j := Nat.add_sub_cancel' hk
    exact classifySector_follow_down ops cfg sector (j - k) k (by rw [hkm]; exact h)

theorem classifyPointCloud_labels_getD (ops : FloatOps) (cfg : Config) :
    ∀ (sectors : List (List PointRef)) (k : ℕ),
      (classifyPointCloud ops cfg sectors).1.getD k []
        = (classifySector ops cfg (sectors.getD k [])).1 := by
  intro sectors
  induction sectors with
  | nil => intro k; simp [classifyPointCloud, classifySector]
  | cons s ss ih =>
    intro k
    cases k with
    | zero => simp [classifyPointCloud]
    | succ k =>
      simp only [List.getD_cons_succ, classifyPointCloud]
      exact ih k

/-- C7: partition completeness.  After classification of a frame no point
is left with the unset `INIT` label: every point's final label is
`GROUND` or `NON_GROUND`, except points left with the unresolved
`POINT_FOLLOW` label, and such a point can exist only inside an
unresolved `POINT_FOLLOW` chain that starts at its sector's very first
point (every point at or before it in that sector's sweep also carries
`POINT_FOLLOW`). -/
theorem claim_c7_partition_completeness (ops : FloatOps) (cfg : Config)
    (sectors : List (List PointRef)) (k j : ℕ)
    (hj : j < (sectors.getD k []).length) :
    ((classifyPointCloud ops cfg sectors).1.getD k []).getD j PointLabel.INIT
        = PointLabel.GROUND ∨
    ((classifyPointCloud ops cfg sectors).1.getD k []).getD j PointLabel.INIT
        = PointLabel.NON_GROUND ∨
    (((classifyPointCloud ops cfg sectors).1.getD k []).getD j PointLabel.INIT
        = PointLabel.POINT_FOLLOW ∧
      ∀ i, i ≤ j →
        ((classifyPointCloud ops cfg sectors).1.getD k []).getD i PointLabel.INIT
          = PointLabel.POINT_FOLLOW) := by
  rw [classifyPointCloud_labels_getD]
  exact classifySector_partition_complete ops cfg (sectors.getD k []) j hj

theorem claim_c7_witness :
    (0 < ([[pLone]].getD 0 []).length) ∧
    (((classifyPointCloud opsLone cfgDefault [[pLone]]).1.getD 0 []).getD 0
        PointLabel.INIT = PointLabel.GROUND ∨
     ((classifyPointCloud opsLone cfgDefault [[pLone]]).1.getD 0 []).getD 0
        PointLabel.INIT = PointLabel.NON_GROUND ∨
     (((classifyPointCloud opsLone cfgDefault [[pLone]]).1.getD 0 []).getD 0
        PointLabel.INIT = PointLabel.POINT_FOLLOW ∧
      ∀ i, i ≤ 0 →
        ((classifyPointCloud opsLone cfgDefault [[pLone]]).1.getD 0 []).getD i
          PointLabel.INIT = PointLabel.POINT_FOLLOW)) :=
  ⟨by decide,
    claim_c7_partition_completeness opsLone cfgDefault [[pLone]] 0 0 (by decide)⟩

/-! ### An arbitrarily long unresolved POINT_FOLLOW prefix -/

/-- Fixture: the sweep state after an unresolved first point: previous
label `POINT_FOLLOW`, fresh accumulators, ground reference at the origin. -/
def stFollow : SweepState :=
  { prev_gnd_radius := 0, prev_gnd_slope := 0, prev_gnd_point := ⟨0, 0, 0⟩,
    prev_point_label := PointLabel.POINT_FOLLOW,
    ground_cluster := PointsCentroid.reset,
    non_ground_cluster := PointsCentroid.reset }

/-- Fixture: the sweep state produced for the first point of a sector of
origin points under `opsZero` / `cfgOne` (previous label still `INIT`). -/
def stStart : SweepState :=
  { prev_gnd_radius := 0, prev_gnd_slope := 0, prev_gnd_point := ⟨0, 0, 0⟩,
    prev_point_label := PointLabel.INIT,
    ground_cluster := PointsCentroid.reset,
    non_ground_cluster := PointsCentroid.reset }

theorem initState_pZero_fst : (initState opsZero cfgOne pZero).1 = stStart := by
  simp only [initState, opsZero, cfgOne, pZero, stStart]
  norm_num

theorem initState_pZero_snd : (initState opsZero cfgOne pZero).2 = 0 := by
  simp only [initState, opsZero, cfgOne, pZero]

theorem stepPreLabel_stStart :
    stepPreLabel opsZero cfgOne stStart 0 pZero = PointLabel.POINT_FOLLOW := by
  simp only [stepPreLabel, opsZero, cfgOne, stStart, pZero,
    PointsCentroid.getAverageHeight, PointsCentroid.getAverageRadius,
    PointsCentroid.reset]
  norm_num

theorem stepPreLabel_stFollow :
    stepPreLabel opsZero cfgOne stFollow 0 pZero = PointLabel.POINT_FOLLOW := by
  simp only [stepPreLabel, opsZero, cfgOne, stFollow, pZero,
    PointsCentroid.getAverageHeight, PointsCentroid.getAverageRadius,
    PointsCentroid.reset]
  norm_num

theorem classifyStep_stStart :
    classifyStep opsZero cfgOne stStart 0 pZero
      = ⟨PointLabel.POINT_FOLLOW, stFollow, []⟩ := by
  simp only [classifyStep, stepPreLabel_stStart, followResolve]
  simp [stStart, stFollow]

theorem classifyStep_stFollow :
    classifyStep opsZero cfgOne stFollow 0 pZero
      = ⟨PointLabel.POINT_FOLLOW, stFollow, []⟩ := by
  simp only [classifyStep, stepPreLabel_stFollow, followResolve]
  simp [stFollow]

theorem classifySectorAux_replicate (n : ℕ) :
    classifySectorAux opsZero cfgOne stFollow pZero (List.replicate n pZero)
      = (List.replicate n PointLabel.POINT_FOLLOW, []) := by
  induction n with
  | zero => rfl
  | succ n ih =>
    simp only [List.replicate_succ, classifySectorAux]
    have hd : opsZero.dist3d pZero.orig_point pZero.orig_point = 0 := rfl
    rw [hd, classifyStep_stFollow]
    simp [ih]

/-- C10: an unresolved `POINT_FOLLOW` propagates.  First part: whenever
the previous point's resolved label is the unresolved `POINT_FOLLOW` and
the current point again comes out of steps 1-4 as `POINT_FOLLOW`, the
current point also stays `POINT_FOLLOW` and is pushed to neither output.
Second part: the excluded prefix can be arbitrarily long — for every `n`,
a sector of `n` identical origin points (under the zero arithmetic
operations and unit thresholds) leaves all `n` points unresolved and the
non-ground output empty. -/
theorem claim_c10_follow_prefix_propagates :
    (∀ (ops : FloatOps) (cfg : Config) (st : SweepState) (d : ℚ)
        (p : PointRef),
      st.prev_point_label = PointLabel.POINT_FOLLOW →
      stepPreLabel ops cfg st d p = PointLabel.POINT_FOLLOW →
      (classifyStep ops cfg st d p).label = PointLabel.POINT_FOLLOW ∧
      (classifyStep ops cfg st d p).pushed = []) ∧
    (∀ n : ℕ, classifySector opsZero cfgOne (List.replicate n pZero)
      = (List.replicate n PointLabel.POINT_FOLLOW, [])) := by
  constructor
  · intro ops cfg st d p hprev hpre
    rw [classifyStep_pushed_eq, classifyStep_label_eq, hpre, hprev]
    simp [followResolve]
  · intro n
    cases n with
    | zero => rfl
    | succ n =>
      simp only [List.replicate_succ, classifySector]
      rw [initState_pZero_fst, initState_pZero_snd, classifyStep_stStart]
      simp [classifySectorAux_replicate n]

theorem claim_c10_witness :
    (stFollow.prev_point_label = PointLabel.POINT_FOLLOW ∧
     stepPreLabel opsZero cfgOne stFollow 0 pZero = PointLabel.POINT_FOLLOW ∧
     (classifyStep opsZero cfgOne stFollow 0 pZero).label
        = PointLabel.POINT_FOLLOW ∧
     (classifyStep opsZero cfgOne stFollow 0 pZero).pushed = []) ∧
    classifySector opsZero cfgOne (List.replicate 5 pZero)
      = (List.replicate 5 PointLabel.POINT_FOLLOW, []) := by
  have h := claim_c10_follow_prefix_propagates.1 opsZero cfgOne stFollow 0 pZero
    rfl stepPreLabel_stFollow
  exact ⟨⟨rfl, stepPreLabel_stFollow, h.1, h.2⟩,
    claim_c10_follow_prefix_propagates.2 5⟩

/-- C8: sector independence.  The labels assigned to the points of the
`k`-th radial division of a multi-sector frame coincide with the labels
obtained by classifying that division as the sole sector of a frame: all
sweep state is created afresh at the start of each division, so no other
division can influence the result. -/
theorem claim_c8_sector_independence (ops : FloatOps) (cfg : Config)
    (sectors : List (List PointRef)) (k : ℕ) :
    (classifyPointCloud ops cfg sectors).1.getD k [] =
      (classifyPointCloud ops cfg [sectors.getD k []]).1.getD 0 [] := by
  induction sectors generalizing k with
  | nil => simp [classifyPointCloud, classifySector]
  | cons s ss ih =>
    cases k with
    | zero => simp [classifyPointCloud]
    | succ k =>
      simp only [List.getD_cons_succ]
      exact ih k

theorem classifyPointCloud_indices_join (ops : FloatOps) (cfg : Config) :
    ∀ sectors : List (List PointRef),
      (classifyPointCloud ops cfg sectors).2
        = (sectors.map (fun s => (classifySector ops cfg s).2)).flatten := by
  intro sectors
  induction sectors with
  | nil => rfl
  | cons s ss ih => simp [classifyPointCloud, ih]

theorem forall₂_mem_right {α β : Type} {R : α → β → Prop} :
    ∀ {l₁ : List α} {l₂ : List β}, List.Forall₂ R l₁ l₂ →
      ∀ b ∈ l₂, ∃ a, R a b := by
  intro l₁ l₂ h
  induction h with
  | nil => intro b hb; simp at hb
  | cons hab _ ih =>
    intro b hb
    rcases List.mem_cons.mp hb with rfl | hb
    · exact ⟨_, hab⟩
    · exact ih b hb

/-- C9: the non-ground output of the pipeline is exactly the input points
at the indices collected during the sweep, copied in collection order:
the per-division collected index lists concatenated in ascending
radial-division order, each division's indices being produced during its
sweep over points kept in ascending-radius order (every processed
division is sorted by radius, per the sort postcondition). -/
theorem claim_c9_output_order (ops : FloatOps) (cfg : Config)
    (cloud output : List PointXYZ) (h : filterRel ops cfg cloud output) :
    ∃ sectors : List (List PointRef),
      List.Forall₂ stdSortPost (convertPointcloudUnsorted ops cfg cloud) sectors ∧
      output = ((sectors.map (fun s => (classifySector ops cfg s).2)).flatten).map
        (fun i => cloud.getD i ⟨0, 0, 0⟩) ∧
      ∀ s ∈ sectors, s.Pairwise (fun a b => a.radius ≤ b.radius) := by
  rcases h with ⟨sectors, hsort, hout⟩
  refine ⟨sectors, hsort, ?_, ?_⟩
  · rw [hout, extractObjectPoints, classifyPointCloud_indices_join]
  · intro s hs
    rcases forall₂_mem_right hsort s hs with ⟨raw, hpost⟩
    exact hpost.2

theorem claim_c9_witness :
    filterRel opsZero cfgOne [] [] ∧
    ∃ sectors : List (List PointRef),
      List.Forall₂ stdSortPost (convertPointcloudUnsorted opsZero cfgOne []) sectors ∧
      ([] : List PointXYZ)
        = ((sectors.map (fun s => (classifySector opsZero cfgOne s).2)).flatten).map
          (fun i => List.getD ([] : List PointXYZ) i ⟨0, 0, 0⟩) ∧
      ∀ s ∈ sectors, s.Pairwise (fun a b => a.radius ≤ b.radius) := by
  have hfr : filterRel opsZero cfgOne [] [] := by
    refine ⟨[[]], ?_, rfl⟩
    exact List.Forall₂.cons ⟨List.Perm.refl [], List.Pairwise.nil⟩ List.Forall₂.nil
  exact ⟨hfr, claim_c9_output_order opsZero cfgOne [] [] hfr⟩

/-! ### The sort step: no stability guarantee -/

/-- Fixture: two distinct points with equal radius 1 (indices 0 and 1). -/
def pTieA : PointRef :=
  { radius := 1, theta := 0, radial_div := 0, point_state := PointLabel.INIT,
    orig_index := 0, orig_point := ⟨1, 0, 0⟩ }

/-- Fixture: the second equal-radius point, input position 1. -/
def pTieB : PointRef :=
  { radius := 1, theta := 0, radial_div := 0, point_state := PointLabel.INIT,
    orig_index := 1, orig_point := ⟨0, 1, 0⟩ }

/-- C1 falls: the sector sort is `std::sort`, whose contract admits
outputs that reorder equal-radius points.  For the two equal-radius
points `pTieA, pTieB`, the swapped list `[pTieB, pTieA]` satisfies the
sort postcondition but violates the stable tie-break rule, and the
unswapped list is also a valid output, so the contract does not determine
a unique output either (no determinism through the sort step alone). -/
theorem claim_c1_counterexample :
    stdSortPost [pTieA, pTieB] [pTieB, pTieA] ∧
    ¬ stableTieBreak [pTieA, pTieB] [pTieB, pTieA] ∧
    stdSortPost [pTieA, pTieB] [pTieA, pTieB] ∧
    [pTieB, pTieA] ≠ [pTieA, pTieB] := by
  refine ⟨by decide, fun h => absurd (h 1) (by decide), by decide, by decide⟩

/-- Two permutations of each other that are both strictly sorted on
`radius` coincide. -/
theorem eq_of_perm_of_strictSorted {l₁ l₂ : List PointRef}
    (hp : l₁.Perm l₂)
    (h₁ : l₁.Pairwise (fun a b => a.radius < b.radius))
    (h₂ : l₂.Pairwise (fun a b => a.radius < b.radius)) : l₁ = l₂ := by
  haveI : IsAntisymm PointRef (fun a b => a.radius < b.radius) :=
    ⟨fun a b h h' => absurd (lt_trans h h') (lt_irrefl _)⟩
  exact List.eq_of_perm_of_sorted hp h₁ h₂

/-- C1 amended: each sector's points are sorted ascending by `radius`
(the output is a permutation of the sector's contents with nondecreasing
radii), but equal-radius order is unspecified; the output — and with it
the downstream label assignment and output ordering — is uniquely
determined only when no two points of a sector share a radius. -/
theorem claim_c1_amended (input o₁ o₂ : List PointRef)
    (hdistinct : input.Pairwise (fun a b => a.radius ≠ b.radius))
    (h₁ : stdSortPost input o₁) (h₂ : stdSortPost input o₂) :
    o₁ = o₂ ∧ input.Perm o₁ ∧
      o₁.Pairwise (fun a b => a.radius ≤ b.radius) := by
  have hne₁ : o₁.Pairwise (fun a b => a.radius ≠ b.radius) :=
    (h₁.1.pairwise_iff (fun h => h.symm)).mp hdistinct
  have hne₂ : o₂.Pairwise (fun a b => a.radius ≠ b.radius) :=
    (h₂.1.pairwise_iff (fun h => h.symm)).mp hdistinct
  have hs₁ : o₁.Pairwise (fun a b => a.radius < b.radius) :=
    (h₁.2.and hne₁).imp (fun h => lt_of_le_of_ne h.1 h.2)
  have hs₂ : o₂.Pairwise (fun a b => a.radius < b.radius) :=
    (h₂.2.and hne₂).imp (fun h => lt_of_le_of_ne h.1 h.2)
  exact ⟨eq_of_perm_of_strictSorted (h₁.1.symm.trans h₂.1) hs₁ hs₂,
    h₁.1, h₁.2⟩

/-- Fixture: a point with radius 2 (index 1), for a distinct-radius sector. -/
def pRad2 : PointRef :=
  { radius := 2, theta := 0, radial_div := 0, point_state := PointLabel.INIT,
    orig_index := 1, orig_point := ⟨2, 0, 0⟩ }

theorem claim_c1_witness :
    [pTieA, pRad2].Pairwise (fun a b => a.radius ≠ b.radius) ∧
    stdSortPost [pTieA, pRad2] [pTieA, pRad2] ∧
    ([pTieA, pRad2] = [pTieA, pRad2] ∧ [pTieA, pRad2].Perm [pTieA, pRad2] ∧
      [pTieA, pRad2].Pairwise (fun a b => a.radius ≤ b.radius)) := by
  refine ⟨by decide, by decide, ?_⟩
  exact claim_c1_amended [pTieA, pRad2] [pTieA, pRad2] [pTieA, pRad2]
    (by decide) (by decide) (by decide)

/-! ### Parameter handling: no validation, no InvalidConfig -/

/-- Fixture: a parameter update setting `radial_divider_angle_deg` to `-1`
and touching nothing else. -/
def updNegRes : ParamUpdate := ⟨none, none, some (-1), none, none, none⟩

/-- C2 falls: the component never rejects a non-positive angular
resolution.  Submitting `radial_divider_angle_deg = -1` to the parameter
callback yields `successful = true` and installs a negative
`radial_divider_angle_rad`; there is no `InvalidConfig` failure and
subsequent frames are processed with the invalid value. -/
theorem claim_c2_counterexample :
    (onParameter (355 / 113) cfgDefault updNegRes).2.successful = true ∧
    (onParameter (355 / 113) cfgDefault updNegRes).1.radial_divider_angle_rad
      < 0 := by
  constructor
  · rfl
  · simp only [onParameter, updNegRes, deg2rad]
    norm_num

/-- C2 amended: `onParameter` performs no validation at all: whatever
`radial_divider_angle_deg` value is supplied (including zero or negative
ones) is converted and installed together with the recomputed divider
count, and the callback always reports `successful = true` with reason
`"success"`. -/
theorem claim_c2_amended (pi : ℚ) (cfg : Config) (upd : ParamUpdate) (d : ℚ)
    (h : upd.radial_divider_angle_deg = some d) :
    (onParameter pi cfg upd).2.successful = true ∧
    (onParameter pi cfg upd).2.reason = "success" ∧
    (onParameter pi cfg upd).1.radial_divider_angle_rad = deg2rad pi d ∧
    (onParameter pi cfg upd).1.radial_dividers_num
      = radialDividersNum pi (deg2rad pi d) := by
  obtain ⟨g, l, r, s1, s2, u⟩ := upd
  simp only at h
  subst h
  cases g <;> cases l <;> cases s1 <;> cases s2 <;> cases u <;>
    simp [onParameter]

theorem claim_c2_witness :
    updNegRes.radial_divider_angle_deg = some (-1) ∧
    ((onParameter (355 / 113) cfgDefault updNegRes).2.successful = true ∧
     (onParameter (355 / 113) cfgDefault updNegRes).2.reason = "success" ∧
     (onParameter (355 / 113) cfgDefault updNegRes).1.radial_divider_angle_rad
        = deg2rad (355 / 113) (-1) ∧
     (onParameter (355 / 113) cfgDefault updNegRes).1.radial_dividers_num
        = radialDividersNum (355 / 113) (deg2rad (355 / 113) (-1))) :=
  ⟨rfl, claim_c2_amended (355 / 113) cfgDefault updNegRes (-1) rfl⟩

/-! ### Sector indexing: wrap-by-360, not clamp, but always in bounds -/

/-- Fixture: a configuration with `radial_divider_angle_deg = 0.5`
(`radial_divider_angle_rad = π/360` with `π = 355/113`), whose divider
count `ceil(2π / (π/360)) = 720` is derived exactly as in the
constructor. -/
def cfgHalfDeg : Config :=
  { cfgOne with
    radial_divider_angle_rad := 355 / 113 / 360
    radial_dividers_num := radialDividersNum (355 / 113) (355 / 113 / 360) }

/-- Fixture: an azimuth of 250°, i.e. `theta = 500 * (π/360)` radians, so
`theta / radial_divider_angle_rad = 500` exactly. -/
def thetaAlias : ℚ := 500 * (355 / 113 / 360)

/-- C3 falls: the code computes
`floor(normalizeDegree(theta / radial_divider_angle_rad, 0.0))` — a wrap
of the quotient into `[0, 360)` — not the spec's
`floor(theta / angular_resolution)` clamped into `[0, sector_count - 1]`.
With a 0.5° resolution (720 sectors) and `theta` at 250°, the quotient is
500: the code wraps it to sector 140, while the spec's clamped formula
yields sector 500 (no clamping is even needed).  The two disagree, so the
binner does not compute the claimed clamped index. -/
theorem claim_c3_counterexample :
    radialDivIndex cfgHalfDeg thetaAlias
      ≠ radialDivIndexClampSpec cfgHalfDeg thetaAlias := by
  have h1 : radialDivIndex cfgHalfDeg thetaAlias = 140 := by
    simp only [radialDivIndex, normalizeDegreeZero, cfgHalfDeg, cfgOne,
      thetaAlias]
    norm_num
    decide
  have h2 : radialDivIndexClampSpec cfgHalfDeg thetaAlias = 500 := by
    simp only [radialDivIndexClampSpec, cfgHalfDeg, cfgOne, thetaAlias,
      radialDividersNum]
    norm_num
    decide
  rw [h1, h2]
  decide

/-- C3 amended: the sector index actually computed is
`floor((theta / angular_resolution) mod 360)` (the wrap performed by
`normalizeDegree(·, 0.0)`), which differs from the claimed clamped
`floor(theta / angular_resolution)` whenever the resolution is below 1°;
nevertheless the computed index is always within
`[0, radial_dividers_num - 1]` for every finite azimuth input, every
positive `π` value and every positive angular resolution, with the
divider count derived as in the constructor, so the per-sector indexing
never goes out of bounds. -/
theorem claim_c3_amended (ops : FloatOps) (cfg : Config) (a : ℚ)
    (hpi : 0 < ops.pi) (hres : 0 < cfg.radial_divider_angle_rad)
    (hnum : cfg.radial_dividers_num
      = radialDividersNum ops.pi cfg.radial_divider_angle_rad) :
    radialDivIndex cfg (normalizeRadianZero ops.pi a)
      < cfg.radial_dividers_num := by
  have h2pi : (0 : ℚ) < 2 * ops.pi := by linarith
  set θ := normalizeRadianZero ops.pi a with hθdef
  have hθ0 : 0 ≤ θ := by
    rw [hθdef]
    unfold normalizeRadianZero
    rw [mul_comm]
    exact Int.sub_floor_div_mul_nonneg a h2pi
  have hθlt : θ < 2 * ops.pi := by
    rw [hθdef]
    unfold normalizeRadianZero
    rw [mul_comm]
    exact Int.sub_floor_div_mul_lt a h2pi
  set res := cfg.radial_divider_angle_rad with hresdef
  set u := θ / res with hudef
  have hu0 : 0 ≤ u := div_nonneg hθ0 hres.le
  have hult : u < 2 * ops.pi / res := by
    rw [hudef]
    exact div_lt_div_of_pos_right hθlt hres
  have hv0 : 0 ≤ normalizeDegreeZero u := by
    unfold normalizeDegreeZero
    rw [mul_comm]
    exact Int.sub_floor_div_mul_nonneg u (by norm_num)
  have hvle : normalizeDegreeZero u ≤ u := by
    unfold normalizeDegreeZero
    have hf : (0 : ℤ) ≤ ⌊u / 360⌋ :=
      Int.floor_nonneg.mpr (div_nonneg hu0 (by norm_num))
    have hfq : (0 : ℚ) ≤ (⌊u / 360⌋ : ℚ) := by exact_mod_cast hf
    nlinarith
  have hceil : (2 * ops.pi / res) ≤ (⌈2 * ops.pi / res⌉ : ℚ) := Int.le_ceil _
  have hfloorlt : ⌊normalizeDegreeZero u⌋ < ⌈2 * ops.pi / res⌉ := by
    have h1 : (⌊normalizeDegreeZero u⌋ : ℚ) ≤ normalizeDegreeZero u :=
      Int.floor_le _
    have h2 : (⌊normalizeDegreeZero u⌋ : ℚ) < (⌈2 * ops.pi / res⌉ : ℚ) := by
      linarith
    exact_mod_cast h2
  have hfloor0 : 0 ≤ ⌊normalizeDegreeZero u⌋ := Int.floor_nonneg.mpr hv0
  rw [hnum]
  unfold radialDivIndex radialDividersNum
  rw [← hresdef, ← hudef]
  omega

theorem claim_c3_witness :
    (0 < opsZero.pi ∧ 0 < cfgHalfDeg.radial_divider_angle_rad ∧
      cfgHalfDeg.radial_dividers_num
        = radialDividersNum opsZero.pi cfgHalfDeg.radial_divider_angle_rad) ∧
    radialDivIndex cfgHalfDeg (normalizeRadianZero opsZero.pi thetaAlias)
      < cfgHalfDeg.radial_dividers_num := by
  have hpi : 0 < opsZero.pi := by norm_num [opsZero]
  have hres : 0 < cfgHalfDeg.radial_divider_angle_rad := by
    norm_num [cfgHalfDeg]
  have hnum : cfgHalfDeg.radial_dividers_num
      = radialDividersNum opsZero.pi cfgHalfDeg.radial_divider_angle_rad := rfl
  exact ⟨⟨hpi, hres, hnum⟩,
    claim_c3_amended opsZero cfgHalfDeg thetaAlias hpi hres hnum⟩

end ScanGroundFilter
